import Mathlib

/-!
Verification of the Subtitle-Creator-Burner subtitle pipeline.

Shallow embedding of the core of `src/core/processor.py` and
`src/utils/translator.py`.  Time values are modelled exactly, as integer
microsecond counts (Python's `timedelta` stores whole microseconds, and a
float with millisecond precision converts to an exact microsecond count),
so no floating point is involved.  Python's floor-division / floor-modulo
semantics coincide with Lean's `Int` division and `%` (Euclidean = floor
for the positive divisors used here).
-/

set_option maxRecDepth 8192

namespace SubtitleApp

/-! ## Character/string helpers shared by the embedding

Python string primitives are re-implemented structurally over `.data`
character lists so that every definition evaluates inside the kernel.
-/

/-- `sub.isPrefixOf l || ...` at every position: Python's `sub in s`
substring test. -/
def containsSub (sub : List Char) : List Char → Bool
  | [] => sub.isEmpty
  | c :: rest => sub.isPrefixOf (c :: rest) || containsSub sub rest

/-- Drop leading and trailing whitespace from a character list:
Python's `str.strip()`. -/
def stripData (l : List Char) : List Char :=
  ((l.dropWhile Char.isWhitespace).reverse.dropWhile Char.isWhitespace).reverse

/-- Python's `str.strip()`. -/
def pyStrip (s : String) : String := ⟨stripData s.data⟩

/-- Python's `s.split("\n\n")`: split on every non-overlapping occurrence of
the two-character separator, leftmost first. -/
def splitBlocksData : List Char → List (List Char)
  | [] => [[]]
  | '\n' :: '\n' :: rest => [] :: splitBlocksData rest
  | c :: rest =>
    match splitBlocksData rest with
    | [] => [[c]]
    | h :: t => (c :: h) :: t

/-- Python's `s.split("\n")`. -/
def splitLinesData : List Char → List (List Char)
  | [] => [[]]
  | '\n' :: rest => [] :: splitLinesData rest
  | c :: rest =>
    match splitLinesData rest with
    | [] => [[c]]
    | h :: t => (c :: h) :: t

/-- Python's `s.split("\n\n")` on strings. -/
def pySplitBlocks (s : String) : List String := (splitBlocksData s.data).map String.mk

/-- Python's `s.split("\n")` on strings. -/
def pySplitLines (s : String) : List String := (splitLinesData s.data).map String.mk

/-- Python's `sep.join(xs)`. -/
def pyJoin (sep : String) : List String → String
  | [] => ""
  | [x] => x
  | x :: y :: xs => x ++ sep ++ pyJoin sep (y :: xs)

/-- Accumulator for `pySplitWs`. -/
def splitWsAux : List Char → List Char → List (List Char)
  | [], acc => if acc.isEmpty then [] else [acc.reverse]
  | c :: rest, acc =>
    if c.isWhitespace then
      if acc.isEmpty then splitWsAux rest []
      else acc.reverse :: splitWsAux rest []
    else splitWsAux rest (c :: acc)

/-- Python's argumentless `str.split()`: split on whitespace runs,
discarding empty pieces. -/
def pySplitWs (s : String) : List String := (splitWsAux s.data []).map String.mk

/-- Python's `str.upper()` (ASCII case mapping). -/
def pyUpper (s : String) : String := ⟨s.data.map Char.toUpper⟩

/-- Python's `str.lower()` (ASCII case mapping). -/
def pyLower (s : String) : String := ⟨s.data.map Char.toLower⟩

/-- Python's `str.isdigit()`: non-empty and all digits. -/
def pyIsDigit (s : String) : Bool := !s.isEmpty && s.data.all Char.isDigit

/-! ## Timestamp encoder (`SubtitleProcessor.format_timestamp`)

Source, `src/core/processor.py` lines 44-51:
the seconds value is normalised by `timedelta` into whole days, a seconds
component `td.seconds` in `[0, 86400)` and a microsecond component
`td.microseconds` in `[0, 1000000)` (floor semantics, also for negative
input); the day component is discarded by the field arithmetic.
-/

/-- Python's `f"{n:02d}"` for the values the encoder produces (every field
passed here is below 100, where this two-digit rendering is exact). -/
def pad2 (n : Nat) : String := ⟨[Nat.digitChar (n / 10), Nat.digitChar (n % 10)]⟩

/-- Python's `f"{n:03d}"` for the values the encoder produces (every field
passed here is below 1000, where this three-digit rendering is exact). -/
def pad3 (n : Nat) : String :=
  ⟨[Nat.digitChar (n / 100), Nat.digitChar (n / 10 % 10), Nat.digitChar (n % 10)]⟩

/-- `SubtitleProcessor.format_timestamp`, input in microseconds.
`td.microseconds = us % 10^6`, `td.seconds = (us / 10^6) % 86400`
(both floor semantics, matching `timedelta` normalisation), then
`hours = td.seconds // 3600`, `minutes = (td.seconds // 60) % 60`,
`seconds = td.seconds % 60`, `milliseconds = td.microseconds // 1000`. -/
def format_timestamp (us : Int) : String :=
  let micro : Nat := (us % 1000000).toNat
  let secs : Nat := ((us / 1000000) % 86400).toNat
  let hours := secs / 3600
  let minutes := secs / 60 % 60
  let seconds := secs % 60
  let milliseconds := micro / 1000
  pad2 hours ++ ":" ++ pad2 minutes ++ ":" ++ pad2 seconds ++ "," ++ pad3 milliseconds

/-- Modelled from the spec: the repository has no timestamp decoder; §4.1 of
the spec describes `decode(text) -> seconds` as the inverse of `encode`,
failing (`FormatError`, here `none`) when the text does not match the
`HH:MM:SS,mmm` pattern.  The result is in milliseconds (exact). -/
def digit? (c : Char) : Option Nat := if c.isDigit then some (c.toNat - 48) else none

/-- Modelled from the spec: `decode` for the `HH:MM:SS,mmm` pattern;
`none` models the `FormatError` failure. Result in milliseconds. -/
def decodeTimestamp (str : String) : Option Nat :=
  match str.data with
  | [h1, h2, c1, m1, m2, c2, s1, s2, c3, x1, x2, x3] =>
    if c1 = ':' ∧ c2 = ':' ∧ c3 = ',' then
      (digit? h1).bind fun a => (digit? h2).bind fun b =>
      (digit? m1).bind fun c => (digit? m2).bind fun d =>
      (digit? s1).bind fun e => (digit? s2).bind fun f =>
      (digit? x1).bind fun g => (digit? x2).bind fun i =>
      (digit? x3).map fun j =>
        ((a * 10 + b) * 3600 + (c * 10 + d) * 60 + (e * 10 + f)) * 1000
          + (g * 100 + i * 10 + j)
    else none
  | _ => none

lemma digit?_digitChar (d : Nat) (hd : d < 10) : digit? (Nat.digitChar d) = some d := by
  interval_cases d <;> rfl

/-- Decoding a well-formed rendered timestamp recovers the field values. -/
lemma decode_pads (h m s ms : Nat) (hh : h < 100) (hm : m < 100) (hs : s < 100)
    (hms : ms < 1000) :
    decodeTimestamp (pad2 h ++ ":" ++ pad2 m ++ ":" ++ pad2 s ++ "," ++ pad3 ms)
      = some ((h * 3600 + m * 60 + s) * 1000 + ms) := by
  have hdata : (pad2 h ++ ":" ++ pad2 m ++ ":" ++ pad2 s ++ "," ++ pad3 ms).data
      = [Nat.digitChar (h / 10), Nat.digitChar (h % 10), ':',
         Nat.digitChar (m / 10), Nat.digitChar (m % 10), ':',
         Nat.digitChar (s / 10), Nat.digitChar (s % 10), ',',
         Nat.digitChar (ms / 100), Nat.digitChar (ms / 10 % 10), Nat.digitChar (ms % 10)] := rfl
  rw [decodeTimestamp, hdata]
  dsimp only
  rw [if_pos (show (':' = ':' ∧ ':' = ':' ∧ ',' = ',') from ⟨rfl, rfl, rfl⟩)]
  rw [digit?_digitChar (h / 10) (by omega), digit?_digitChar (h % 10) (by omega),
      digit?_digitChar (m / 10) (by omega), digit?_digitChar (m % 10) (by omega),
      digit?_digitChar (s / 10) (by omega), digit?_digitChar (s % 10) (by omega),
      digit?_digitChar (ms / 100) (by omega), digit?_digitChar (ms / 10 % 10) (by omega),
      digit?_digitChar (ms % 10) (by omega)]
  simp only [Option.some_bind, Option.map_some']
  exact congrArg some (by omega)

/-- The encoder, on a non-negative microsecond count, rendered in terms of
the total time: the hour field is `⌊t/3600s⌋ mod 24`. -/
lemma format_timestamp_ofNat (us : Nat) :
    format_timestamp (us : Int)
      = pad2 (us / 3600000000 % 24) ++ ":" ++ pad2 (us / 60000000 % 60) ++ ":"
        ++ pad2 (us / 1000000 % 60) ++ "," ++ pad3 (us % 1000000 / 1000) := by
  show pad2 ((((us : Int) / 1000000) % 86400).toNat / 3600) ++ ":"
      ++ pad2 ((((us : Int) / 1000000) % 86400).toNat / 60 % 60) ++ ":"
      ++ pad2 ((((us : Int) / 1000000) % 86400).toNat % 60) ++ ","
      ++ pad3 (((us : Int) % 1000000).toNat / 1000) = _
  have h1 : (((us : Int) / 1000000) % 86400).toNat / 3600 = us / 3600000000 % 24 := by omega
  have h2 : (((us : Int) / 1000000) % 86400).toNat / 60 % 60 = us / 60000000 % 60 := by omega
  have h3 : (((us : Int) / 1000000) % 86400).toNat % 60 = us / 1000000 % 60 := by omega
  have h4 : ((us : Int) % 1000000).toNat / 1000 = us % 1000000 / 1000 := by omega
  rw [h1, h2, h3, h4]

/-- The encoder on an arbitrary (possibly negative) microsecond count, in
terms of the `timedelta`-normalised fields. -/
lemma format_timestamp_eq (us : Int) :
    format_timestamp us
      = pad2 (((us / 1000000) % 86400).toNat / 3600) ++ ":"
        ++ pad2 (((us / 1000000) % 86400).toNat / 60 % 60) ++ ":"
        ++ pad2 (((us / 1000000) % 86400).toNat % 60) ++ ","
        ++ pad3 ((us % 1000000).toNat / 1000) := rfl

/-- C2 counterexample: at `t = 90000.0` seconds (25 h), the encoder emits
hour field `01`, not the `25` the claim requires: `timedelta` normalisation
discards whole days. -/
theorem C2_counterexample :
    format_timestamp (90000000000 : Int) ≠ "25:00:00,000"
      ∧ format_timestamp (90000000000 : Int) = "01:00:00,000" := by
  constructor
  · decide
  · decide

/-- C2 (amended): for every non-negative seconds value (given in exact
microseconds), the encoder produces `HH:MM:SS,mmm` where `HH` is
`⌊t/3600⌋ mod 24` (whole days are discarded, so the field wraps at 24
rather than being unbounded), `MM` and `SS` are in 00–59, and `mmm` is the
fractional part truncated (not rounded) to milliseconds. -/
theorem C2_format_timestamp_fields (us : Nat) :
    format_timestamp (us : Int)
        = pad2 (us / 3600000000 % 24) ++ ":" ++ pad2 (us / 60000000 % 60) ++ ":"
          ++ pad2 (us / 1000000 % 60) ++ "," ++ pad3 (us % 1000000 / 1000)
      ∧ us / 3600000000 % 24 < 24
      ∧ us / 60000000 % 60 < 60 ∧ us / 1000000 % 60 < 60
      ∧ us % 1000000 / 1000 < 1000 := by
  refine ⟨format_timestamp_ofNat us, ?_, ?_, ?_, ?_⟩ <;> omega

/-- C8 counterexample: at `t = 86400.0` seconds the encoder wraps to
`00:00:00,000`, so the decoded value is 0 ms, off from `t` by a full day —
far beyond the claimed 1 ms tolerance. -/
theorem C8_counterexample :
    decodeTimestamp (format_timestamp (86400000000 : Int)) = some 0
      ∧ 1 < 86400000 - 0 := by
  constructor
  · decide
  · norm_num

/-- C8 (amended): for every non-negative `t` with millisecond precision
below 24 hours, decoding the encoded timestamp yields `t` back exactly
(in particular within 1 ms); beyond 24 hours the day wrap of the encoder
breaks the round trip. `t` is given as a millisecond count. -/
theorem C8_decode_encode (tms : Nat) (h : tms < 86400000) :
    decodeTimestamp (format_timestamp ((tms : Int) * 1000)) = some tms := by
  have hcast : ((tms : Int) * 1000) = ((tms * 1000 : Nat) : Int) := by push_cast; ring
  rw [hcast, format_timestamp_ofNat (tms * 1000),
    decode_pads _ _ _ _ (by omega) (by omega) (by omega) (by omega)]
  congr 1
  omega

/-- C8 witness at the spec's example `t = 3725.4 s = 3725400 ms`. -/
theorem C8_witness :
    3725400 < 86400000
      ∧ decodeTimestamp (format_timestamp ((3725400 : Int) * 1000)) = some 3725400 :=
  ⟨by norm_num, C8_decode_encode 3725400 (by norm_num)⟩

/-- C9 counterexample: a negative input (-1 second) is not rejected; the
encoder returns the wrapped timestamp `"23:59:59,000"`. -/
theorem C9_counterexample : format_timestamp (-1000000 : Int) = "23:59:59,000" := by
  decide

/-- C9 (amended): the encoder is total and never fails: on every negative
seconds input it still returns a string matching the `HH:MM:SS,mmm`
pattern (the input is wrapped modulo 24 h by `timedelta` normalisation)
rather than rejecting it. -/
theorem C9_negative_not_rejected (us : Int) (hneg : us < 0) :
    (decodeTimestamp (format_timestamp us)).isSome = true := by
  rw [format_timestamp_eq us,
    decode_pads _ _ _ _ (by omega) (by omega) (by omega) (by omega)]
  rfl

/-- C9 witness at -1 second. -/
theorem C9_witness :
    (-1000000 : Int) < 0
      ∧ (decodeTimestamp (format_timestamp (-1000000 : Int))).isSome = true :=
  ⟨by norm_num, C9_negative_not_rejected (-1000000) (by norm_num)⟩

/-! ## Subtitle creation (`SubtitleProcessor.create_subtitles`)

Source, `src/core/processor.py` lines 127-188.  A transcription segment
carries start/end times (here in exact microseconds) and a text.
-/

/-- One transcription segment (`result["segments"]` element). -/
structure Segment where
  start : Int
  «end» : Int
  text : String

/-- Lines 163-176: the SRT text written to `srt_path`.  For each segment
(1-based enumeration) the list `[str(i), "start --> end", text.strip() + "\n"]`
is appended, and the pieces are joined with `"\n"`. -/
def create_srt_content (segments : List Segment) : String :=
  let srt_content :=
    (segments.enum.map fun p =>
      [toString (p.1 + 1),
       format_timestamp p.2.start ++ " --> " ++ format_timestamp p.2.«end»,
       pyStrip p.2.text ++ "\n"]).flatten
  pyJoin "\n" srt_content

/-- C1: the two-segment transcription `[{0.0, 1.5, "Hello"}, {1.5, 3.0, "world"}]`
serialises bit-for-bit to the claimed SRT text: index lines 1 and 2,
timestamp lines joined by " --> ", trimmed text blocks, blocks separated by
exactly one blank line. -/
theorem C1_end_to_end_serialization :
    create_srt_content
        [⟨0, 1500000, "Hello"⟩, ⟨1500000, 3000000, "world"⟩]
      = "1\n00:00:00,000 --> 00:00:01,500\nHello\n\n2\n00:00:01,500 --> 00:00:03,000\nworld\n" := by
  decide

/-- Environment of one `create_subtitles` run: which of the fallible steps
succeed, and the transcription result.  Failure of a step models the
corresponding Python call raising an exception. -/
structure CreateEnv where
  srtExists : Bool
  backupOk : Bool
  extractOk : Bool
  transcribeOk : Bool
  writeOk : Bool
  segments : List Segment

/-- Filesystem artifacts touched by one `create_subtitles` run. -/
structure CreateFS where
  backupMade : Bool
  tempAudioOnDisk : Bool
  srtWritten : Option String
deriving DecidableEq

/-- `SubtitleProcessor.create_subtitles`, lines 127-188, as a straight-line
translation of the `try:` body.  The `except` clause (lines 186-188) only
logs and re-raises, so every raised error leaves the function unchanged;
in particular there is no `finally`/cleanup on the error paths, which the
returned filesystem state makes visible.  `os.remove(audio_path)`
(line 179) runs only after a successful write. -/
def create_subtitles (env : CreateEnv) : Except String Bool × CreateFS :=
  let fs : CreateFS := ⟨false, false, none⟩
  -- lines 138-140: backup an existing SRT file; an exception from
  -- shutil.copy2 propagates through the except/raise handler
  if env.srtExists && !env.backupOk then (.error "backup copy failed", fs) else
  let fs : CreateFS := { fs with backupMade := env.srtExists }
  -- line 146: audio_path = self.extract_audio(video_path)
  if !env.extractOk then (.error "FFmpeg error", fs) else
  let fs : CreateFS := { fs with tempAudioOnDisk := true }
  -- line 158: result = self.current_model.transcribe(audio_path, **options)
  if !env.transcribeOk then (.error "transcription failed", fs) else
  -- lines 163-176: build and write the SRT file
  if !env.writeOk then (.error "srt write failed", fs) else
  let fs : CreateFS := { fs with srtWritten := some (create_srt_content env.segments) }
  -- line 179: os.remove(audio_path)
  let fs : CreateFS := { fs with tempAudioOnDisk := false }
  (.ok true, fs)

/-- C3 counterexample: when the target SRT file exists and the `.bak` copy
fails, the run does not continue: it aborts with the backup error before
extracting audio or writing anything. -/
theorem C3_counterexample :
    create_subtitles ⟨true, false, true, true, true, []⟩
      = (.error "backup copy failed", ⟨false, false, none⟩) := rfl

/-- C3 (amended): a failure of the `.bak` backup copy is logged but IS
propagated (the enclosing handler logs and re-raises): the run aborts with
that error and no later stage runs, rather than continuing non-fatally. -/
theorem C3_backup_failure_fatal (env : CreateEnv)
    (hex : env.srtExists = true) (hbk : env.backupOk = false) :
    create_subtitles env = (.error "backup copy failed", ⟨false, false, none⟩) := by
  unfold create_subtitles
  rw [hex, hbk]
  rfl

/-- C3 witness. -/
theorem C3_witness :
    (⟨true, false, true, true, true, []⟩ : CreateEnv).srtExists = true
      ∧ create_subtitles ⟨true, false, true, true, true, []⟩
          = (.error "backup copy failed", ⟨false, false, none⟩) :=
  ⟨rfl, C3_backup_failure_fatal ⟨true, false, true, true, true, []⟩ rfl rfl⟩

/-- C4 counterexample: extraction succeeds, transcription fails — the run
propagates the error but the extracted temp audio file is still on disk:
no cleanup is attempted on the failure path. -/
theorem C4_counterexample :
    (create_subtitles ⟨false, true, true, false, true, []⟩).2.tempAudioOnDisk = true
      ∧ create_subtitles ⟨false, true, true, false, true, []⟩
          = (.error "transcription failed", ⟨false, true, none⟩) :=
  ⟨rfl, rfl⟩

/-- C4 (amended): when audio extraction succeeds but a later stage
(transcription or subtitle-file writing) fails, the run performs NO
cleanup: the error propagates and the extracted temp audio file
(input stem + "_temp.wav") is left on disk after the failed run
(the `except` clause only logs and re-raises; `os.remove` is reached only
on success). -/
theorem C4_no_cleanup_on_failure (env : CreateEnv)
    (hb : env.srtExists = false ∨ env.backupOk = true)
    (hext : env.extractOk = true)
    (hfail : env.transcribeOk = false ∨ env.writeOk = false) :
    (∃ e, (create_subtitles env).1 = .error e)
      ∧ (create_subtitles env).2.tempAudioOnDisk = true := by
  unfold create_subtitles
  have hb' : (env.srtExists && !env.backupOk) = false := by
    rcases hb with h | h <;> simp [h]
  rw [hb', hext]
  rcases hfail with h | h
  · rw [h]
    exact ⟨⟨"transcription failed", rfl⟩, rfl⟩
  · rw [h]
    cases htr : env.transcribeOk
    · exact ⟨⟨"transcription failed", rfl⟩, rfl⟩
    · exact ⟨⟨"srt write failed", rfl⟩, rfl⟩

/-- C4 witness. -/
theorem C4_witness :
    ((∃ e, (create_subtitles ⟨false, true, true, false, true, []⟩).1 = .error e)
      ∧ (create_subtitles ⟨false, true, true, false, true, []⟩).2.tempAudioOnDisk = true) :=
  C4_no_cleanup_on_failure ⟨false, true, true, false, true, []⟩ (Or.inl rfl) rfl (Or.inl rfl)

/-! ## Subtitle translation (`SubtitleTranslator.translate_srt`)

Source, `src/utils/translator.py` lines 9-43.  The engine call
`translator.translate(text)` is modelled as an injected
`tr : String → Except String String`; `.error` models the engine raising.
An `.ok s` overall result models the output file being written with
content `s`; an `.error` overall result models the wrapped exception
propagating — the output file is opened only after the loop (line 37), so
on failure no file is written at all.
-/

/-- Line 18: `blocks = content.strip().split('\n\n')`. -/
def srt_blocks (content : String) : List String := pySplitBlocks (pyStrip content)

/-- Lines 21-34: the per-block loop.  A block with fewer than 3 lines is
silently skipped; otherwise the first line (number) and second line
(timestamp) are kept verbatim, the remaining lines are joined with single
spaces, translated, and the block is rebuilt as
`f"{number}\n{timestamp}\n{translated_text}\n"`.  A failing engine call
aborts the whole loop with its error. -/
def translate_blocks (tr : String → Except String String) :
    List String → Except String (List String)
  | [] => .ok []
  | b :: rest =>
    match pySplitLines b with
    | n :: t :: l :: ls =>
      match tr (pyJoin " " (l :: ls)) with
      | .error e => .error e
      | .ok tx =>
        match translate_blocks tr rest with
        | .error e => .error e
        | .ok bs => .ok ((n ++ "\n" ++ t ++ "\n" ++ tx ++ "\n") :: bs)
    | _ => translate_blocks tr rest

/-- `SubtitleTranslator.translate_srt`: split into blocks, translate each,
join the rebuilt blocks with `'\n'` (line 38) and write the file; any
exception is wrapped (line 43) as
`"Error translating subtitles: " + str(e)`. -/
def translate_srt (content : String) (tr : String → Except String String) :
    Except String String :=
  match translate_blocks tr (srt_blocks content) with
  | .error e => .error ("Error translating subtitles: " ++ e)
  | .ok bs => .ok (pyJoin "\n" bs)

/-- On an all-successful engine, the per-block loop maps every block with
at least 3 lines to its rebuilt form, in order. -/
lemma translate_blocks_ok (f : String → String) (bs : List String)
    (h : ∀ b ∈ bs, 3 ≤ (pySplitLines b).length) :
    translate_blocks (fun s => .ok (f s)) bs
      = .ok (bs.map fun b =>
          (pySplitLines b).headD "" ++ "\n" ++ ((pySplitLines b).drop 1).headD "" ++ "\n"
            ++ f (pyJoin " " ((pySplitLines b).drop 2)) ++ "\n") := by
  induction bs with
  | nil => rfl
  | cons b rest ih =>
    have hb : 3 ≤ (pySplitLines b).length := h b (by simp)
    have hrest : ∀ x ∈ rest, 3 ≤ (pySplitLines x).length :=
      fun x hx => h x (List.mem_cons_of_mem _ hx)
    obtain ⟨n, t, l, ls, hsp⟩ : ∃ n t l ls, pySplitLines b = n :: t :: l :: ls := by
      rcases e : pySplitLines b with _ | ⟨n, _ | ⟨t, _ | ⟨l, ls⟩⟩⟩ <;> rw [e] at hb
      · simp at hb
      · simp at hb
      · simp at hb
      · exact ⟨n, t, l, ls, rfl⟩
    simp only [translate_blocks, hsp, ih hrest, List.map_cons]
    simp [hsp]

/-- C5: for every subtitle file whose blocks each have at least 3 lines,
translation (with a total engine `f`) produces an output with the same
number of blocks, each keeping the input block's index line and timestamp
line unchanged character for character, replacing only the text; the text
passed to the engine is the block's lines from the third onward joined
with single spaces, and blocks are processed in original order. -/
theorem C5_translation_preserves_structure (content : String) (f : String → String)
    (h : ∀ b ∈ srt_blocks content, 3 ≤ (pySplitLines b).length) :
    ∃ outs : List String,
      translate_srt content (fun s => .ok (f s)) = .ok (pyJoin "\n" outs)
        ∧ outs.length = (srt_blocks content).length
        ∧ ∀ (i : Nat) (b : String), (srt_blocks content)[i]? = some b →
            outs[i]? = some ((pySplitLines b).headD "" ++ "\n"
              ++ ((pySplitLines b).drop 1).headD "" ++ "\n"
              ++ f (pyJoin " " ((pySplitLines b).drop 2)) ++ "\n") := by
  refine ⟨(srt_blocks content).map fun b =>
      (pySplitLines b).headD "" ++ "\n" ++ ((pySplitLines b).drop 1).headD "" ++ "\n"
        ++ f (pyJoin " " ((pySplitLines b).drop 2)) ++ "\n", ?_, ?_, ?_⟩
  · rw [translate_srt, translate_blocks_ok f _ h]
  · exact List.length_map _ _
  · intro i b hib
    rw [List.getElem?_map, hib, Option.map_some']

/-- C5 witness on a concrete two-block file with an uppercasing engine. -/
theorem C5_witness :
    (∀ b ∈ srt_blocks "1\n00:00:00,000 --> 00:00:01,500\nHello\n\n2\n00:00:01,500 --> 00:00:03,000\nworld",
        3 ≤ (pySplitLines b).length)
      ∧ ∃ outs : List String,
          translate_srt
              "1\n00:00:00,000 --> 00:00:01,500\nHello\n\n2\n00:00:01,500 --> 00:00:03,000\nworld"
              (fun s => .ok (pyUpper s))
            = .ok (pyJoin "\n" outs)
          ∧ outs.length = (srt_blocks "1\n00:00:00,000 --> 00:00:01,500\nHello\n\n2\n00:00:01,500 --> 00:00:03,000\nworld").length
          ∧ ∀ (i : Nat) (b : String), (srt_blocks "1\n00:00:00,000 --> 00:00:01,500\nHello\n\n2\n00:00:01,500 --> 00:00:03,000\nworld")[i]? = some b →
              outs[i]? = some ((pySplitLines b).headD "" ++ "\n"
                ++ ((pySplitLines b).drop 1).headD "" ++ "\n"
                ++ pyUpper (pyJoin " " ((pySplitLines b).drop 2)) ++ "\n") :=
  ⟨by decide,
   C5_translation_preserves_structure
     "1\n00:00:00,000 --> 00:00:01,500\nHello\n\n2\n00:00:01,500 --> 00:00:03,000\nworld"
     pyUpper (by decide)⟩

/-- If some block with at least 3 lines has a failing engine call, the
whole per-block loop fails. -/
lemma translate_blocks_error (tr : String → Except String String) (bs : List String)
    (h : ∃ b ∈ bs, 3 ≤ (pySplitLines b).length
          ∧ ∃ m, tr (pyJoin " " ((pySplitLines b).drop 2)) = .error m) :
    ∃ e, translate_blocks tr bs = .error e := by
  induction bs with
  | nil => obtain ⟨b, hb, _⟩ := h; simp at hb
  | cons b rest ih =>
    obtain ⟨b0, hb0, hlen, m, hm⟩ := h
    rcases e : pySplitLines b with _ | ⟨n, _ | ⟨t, _ | ⟨l, ls⟩⟩⟩
    all_goals simp only [translate_blocks, e]
    · -- block skipped (fewer than 3 lines): the witness block is in the tail
      rcases List.mem_cons.mp hb0 with rfl | hmem
      · rw [e] at hlen; simp at hlen
      · exact ih ⟨b0, hmem, hlen, m, hm⟩
    · rcases List.mem_cons.mp hb0 with rfl | hmem
      · rw [e] at hlen; simp at hlen
      · exact ih ⟨b0, hmem, hlen, m, hm⟩
    · rcases List.mem_cons.mp hb0 with rfl | hmem
      · rw [e] at hlen; simp at hlen
      · exact ih ⟨b0, hmem, hlen, m, hm⟩
    · cases htr : tr (pyJoin " " (l :: ls)) with
      | error e2 => exact ⟨e2, rfl⟩
      | ok tx =>
        rcases List.mem_cons.mp hb0 with rfl | hmem
        · rw [e] at hm; simp only [List.drop_succ_cons, List.drop_zero] at hm
          rw [htr] at hm; exact absurd hm (by simp)
        · obtain ⟨e2, he2⟩ := ih ⟨b0, hmem, hlen, m, hm⟩
          rw [he2]
          exact ⟨e2, rfl⟩

/-- C6: if the translation of any single block's text fails (the engine
call raises), the whole translation operation fails with a wrapping error
and no partial output is produced: the result is an error carrying no
document, modelling that the output subtitle file (opened only after the
loop) is never written, with earlier translated blocks discarded. -/
theorem C6_failure_discards_partial_output (content : String)
    (tr : String → Except String String)
    (h : ∃ b ∈ srt_blocks content, 3 ≤ (pySplitLines b).length
          ∧ ∃ m, tr (pyJoin " " ((pySplitLines b).drop 2)) = .error m) :
    ∃ e, translate_srt content tr = .error ("Error translating subtitles: " ++ e) := by
  obtain ⟨e, he⟩ := translate_blocks_error tr (srt_blocks content) h
  exact ⟨e, by rw [translate_srt, he]⟩

/-- C6 witness: a one-block file whose engine call fails. -/
theorem C6_witness :
    ("1\nT\nHello" ∈ srt_blocks "1\nT\nHello"
        ∧ 3 ≤ (pySplitLines "1\nT\nHello").length)
      ∧ ∃ e, translate_srt "1\nT\nHello"
            (fun s => if s = "Hello" then .error "engine down" else .ok s)
          = .error ("Error translating subtitles: " ++ e) :=
  ⟨by decide,
   C6_failure_discards_partial_output "1\nT\nHello"
     (fun s => if s = "Hello" then .error "engine down" else .ok s)
     ⟨"1\nT\nHello", by decide, by decide, "engine down", rfl⟩⟩

/-! ## Style compilation (`SubtitleProcessor.burn_subtitles`, lines 212-244)

The style string is a pure computation on the configuration inputs; it is
factored out here exactly as the source builds `style_components` and
`style = ",".join(style_components)`.
-/

/-- `SubtitleProcessor.convert_color_to_hex`, lines 320-331: fixed
name-to-BGR-hex table on the lowercased name, falling back to white. -/
def convert_color_to_hex (color_name : String) : String :=
  let l := pyLower color_name
  if l = "white" then "&HFFFFFF&"
  else if l = "yellow" then "&H00FFFF&"
  else if l = "black" then "&H000000&"
  else if l = "green" then "&H00FF00&"
  else if l = "cyan" then "&HFFFF00&"
  else if l = "gray" then "&H808080&"
  else if l = "none" then ""
  else "&HFFFFFF&"

/-- `SubtitleProcessor._get_alignment`, lines 345-351. -/
def _get_alignment (position : String) : String :=
  if position = "top center" then "8" else "2"

/-- Lines 213-241: the `style_components` list: base components, then the
alignment, then either the outline border pair (background "none") or the
background colour plus box border style. -/
def style_components (font_size font_name font_color font_outline : String)
    (margin_left : Int) (subtitle_position background_color : String) : List String :=
  ["FontSize=" ++ font_size,
   "FontName=" ++ font_name,
   "PrimaryColour=" ++ convert_color_to_hex font_color,
   "OutlineColour=" ++ convert_color_to_hex font_outline,
   "MarginL=" ++ toString margin_left,
   "MarginR=50",
   "MarginV=20",
   "Outline=1",
   "Shadow=1"]
  ++ ["Alignment=" ++ _get_alignment subtitle_position]
  ++ (if background_color = "none" then
        ["BorderStyle=1", "Outline=1"]
      else
        ["BackColour=" ++ convert_color_to_hex background_color,
         "BorderStyle=3",
         "Outline=1"])

/-- Line 244: `style = ",".join(style_components)`. -/
def style (font_size font_name font_color font_outline : String)
    (margin_left : Int) (subtitle_position background_color : String) : String :=
  pyJoin ","
    (style_components font_size font_name font_color font_outline
      margin_left subtitle_position background_color)

/-- Two appended strings differ whenever their left parts differ at a
character position inside both left parts. -/
lemma append_ne_append (a b x y : String) (i : Nat) (ca cb : Char)
    (hca : a.data[i]? = some ca) (hcb : b.data[i]? = some cb) (hne : ca ≠ cb) :
    a ++ x ≠ b ++ y := by
  intro heq
  have hd : (a ++ x).data = (b ++ y).data := congrArg String.data heq
  rw [String.data_append, String.data_append] at hd
  have hia : i < a.data.length := by
    by_contra hlt
    rw [List.getElem?_eq_none (by omega)] at hca
    exact Option.noConfusion hca
  have hib : i < b.data.length := by
    by_contra hlt
    rw [List.getElem?_eq_none (by omega)] at hcb
    exact Option.noConfusion hcb
  have : (a.data ++ x.data)[i]? = (b.data ++ y.data)[i]? := by rw [hd]
  rw [List.getElem?_append, List.getElem?_append, if_pos hia, if_pos hib, hca, hcb] at this
  exact hne (Option.some.injEq _ _ ▸ this)

/-- A string literal differs from an appended pair under the same
conditions. -/
lemma lit_ne_append (a b y : String) (i : Nat) (ca cb : Char)
    (hca : a.data[i]? = some ca) (hcb : b.data[i]? = some cb) (hne : ca ≠ cb) :
    a ≠ b ++ y := by
  intro heq
  have : a ++ "" ≠ b ++ y := append_ne_append a b "" y i ca cb hca hcb hne
  exact this (by simpa using heq)

/-- C7: for every style configuration, the compiled style string is the
comma join of `style_components`; when the background colour is "none"
no component is a `BackColour` key; for any other background value the
components contain both `BackColour=` followed by the colour's hex code
and the box border-style code `BorderStyle=3`.  The computation is a pure
function, so the same configuration always yields the same string. -/
theorem C7_style_compilation (fs fn fc fo : String) (ml : Int) (pos bg : String) :
    style fs fn fc fo ml pos bg
        = pyJoin "," (style_components fs fn fc fo ml pos bg)
      ∧ (bg = "none" →
          ∀ s ∈ style_components fs fn fc fo ml pos bg,
            ∀ v : String, s ≠ "BackColour=" ++ v)
      ∧ (bg ≠ "none" →
          ("BackColour=" ++ convert_color_to_hex bg)
              ∈ style_components fs fn fc fo ml pos bg
            ∧ "BorderStyle=3" ∈ style_components fs fn fc fo ml pos bg) := by
  refine ⟨rfl, ?_, ?_⟩
  · intro hbg s hs v
    rw [style_components, if_pos hbg] at hs
    simp only [List.mem_append, List.mem_cons, List.mem_singleton, List.not_mem_nil,
      or_false] at hs
    rcases hs with ((h|h|h|h|h|h|h|h|h)|h)|h|h <;> subst h
    · exact append_ne_append _ _ _ _ 0 'F' 'B' rfl rfl (by decide)
    · exact append_ne_append _ _ _ _ 0 'F' 'B' rfl rfl (by decide)
    · exact append_ne_append _ _ _ _ 0 'P' 'B' rfl rfl (by decide)
    · exact append_ne_append _ _ _ _ 0 'O' 'B' rfl rfl (by decide)
    · exact append_ne_append _ _ _ _ 0 'M' 'B' rfl rfl (by decide)
    · exact lit_ne_append _ _ _ 0 'M' 'B' rfl rfl (by decide)
    · exact lit_ne_append _ _ _ 0 'M' 'B' rfl rfl (by decide)
    · exact lit_ne_append _ _ _ 0 'O' 'B' rfl rfl (by decide)
    · exact lit_ne_append _ _ _ 0 'S' 'B' rfl rfl (by decide)
    · exact append_ne_append _ _ _ _ 0 'A' 'B' rfl rfl (by decide)
    · exact lit_ne_append _ _ _ 1 'o' 'a' rfl rfl (by decide)
    · exact lit_ne_append _ _ _ 0 'O' 'B' rfl rfl (by decide)
  · intro hbg
    rw [style_components, if_neg hbg]
    constructor
    · simp
    · simp

/-- C7 witness: with background "black" the box components are present;
with background "none" the border component is not a BackColour key. -/
theorem C7_witness :
    ("black" ≠ "none"
        ∧ ("BackColour=" ++ convert_color_to_hex "black")
            ∈ style_components "24" "Arial" "white" "black" 50 "bottom" "black"
        ∧ "BorderStyle=3" ∈ style_components "24" "Arial" "white" "black" 50 "bottom" "black")
      ∧ "BorderStyle=1" ≠ "BackColour=" ++ "X" :=
  ⟨⟨by decide,
    (C7_style_compilation "24" "Arial" "white" "black" 50 "bottom" "black").2.2 (by decide)⟩,
   (C7_style_compilation "24" "Arial" "white" "black" 50 "bottom" "none").2.1 rfl
     "BorderStyle=1" (by simp [style_components]) "X"⟩

/-! ## Text transform stage (`SubtitleProcessor.modify_subtitle_file`)

Source, `src/core/processor.py` lines 287-314.  The per-line loop over the
input file: Python file iteration yields each line including its trailing
newline (except possibly the last).  A line is rewritten only when it
contains no `-->`, its stripped form is not purely digits, and it is not
blank; every other line is copied byte-for-byte.
-/

/-- The rewrite applied to a matched caption line (lines 299-309):
strip, optionally uppercase, optionally re-join whitespace-split words
with single spaces, and append a newline. -/
def transform_line (uppercase word_by_word : Bool) (line : String) : String :=
  let text := pyStrip line
  let text := if uppercase then pyUpper text else text
  let text := if word_by_word then pyJoin " " (pySplitWs text) else text
  text ++ "\n"

/-- The condition of line 298:
`'-->' not in line and line.strip().isdigit() == False and line.strip()`. -/
def is_caption_line (line : String) : Bool :=
  !containsSub "-->".data line.data && !pyIsDigit (pyStrip line)
    && !(pyStrip line).isEmpty

/-- `SubtitleProcessor.modify_subtitle_file`, per-line loop (lines 296-312),
on the list of input lines. -/
def modify_subtitle_file (lines : List String) (uppercase word_by_word : Bool) :
    List String :=
  lines.map fun line =>
    if is_caption_line line then transform_line uppercase word_by_word line
    else line

/-- C10: in the text-transform stage a line is transformed only if it is
non-blank, does not contain `-->` and is not composed solely of digits
after stripping; every other line (index lines, timestamp lines, blank
separators, and also digits-only caption lines) is written to the output
byte-for-byte unchanged, whatever the uppercase/word-by-word flags are. -/
theorem C10_transform_condition (lines : List String) (uppercase word_by_word : Bool)
    (i : Nat) (line : String) (hline : lines[i]? = some line) :
    ((containsSub "-->".data line.data ∨ pyIsDigit (pyStrip line) = true
        ∨ (pyStrip line).isEmpty = true) →
      (modify_subtitle_file lines uppercase word_by_word)[i]? = some line)
    ∧ ((containsSub "-->".data line.data = false ∧ pyIsDigit (pyStrip line) = false
        ∧ (pyStrip line).isEmpty = false) →
      (modify_subtitle_file lines uppercase word_by_word)[i]?
        = some (transform_line uppercase word_by_word line)) := by
  constructor
  · intro hcond
    rw [modify_subtitle_file, List.getElem?_map, hline, Option.map_some']
    have : is_caption_line line = false := by
      rw [is_caption_line]
      rcases hcond with h | h | h <;> simp [h]
    rw [this]
    rfl
  · intro ⟨h1, h2, h3⟩
    rw [modify_subtitle_file, List.getElem?_map, hline, Option.map_some']
    have : is_caption_line line = true := by
      rw [is_caption_line, h1, h2, h3]
      rfl
    rw [this]
    rfl

/-- C10 witness: with both flags set, the digits-only caption line
`"42\n"` passes through unchanged, while `"hello  world\n"` is uppercased
and whitespace-normalised. -/
theorem C10_witness :
    (["1\n", "00:00:00,000 --> 00:00:01,500\n", "42\n", "hello  world\n"][2]?
        = some "42\n"
      ∧ (modify_subtitle_file
            ["1\n", "00:00:00,000 --> 00:00:01,500\n", "42\n", "hello  world\n"]
            true true)[2]? = some "42\n")
      ∧ (modify_subtitle_file
            ["1\n", "00:00:00,000 --> 00:00:01,500\n", "42\n", "hello  world\n"]
            true true)[3]? = some "HELLO WORLD\n" :=
  ⟨⟨rfl,
    (C10_transform_condition
        ["1\n", "00:00:00,000 --> 00:00:01,500\n", "42\n", "hello  world\n"]
        true true 2 "42\n" rfl).1 (Or.inr (Or.inl (by decide)))⟩,
   by
    have := (C10_transform_condition
        ["1\n", "00:00:00,000 --> 00:00:01,500\n", "42\n", "hello  world\n"]
        true true 3 "hello  world\n" rfl).2 ⟨by decide, by decide, by decide⟩
    rw [this]
    rfl⟩

end SubtitleApp
